import Mathlib

/-!
Verification development for the document-validator repository.

The engine under study is the field-validation core in
`src/processors/validator.py` together with the cross-field banking check
`validate_banking_details` in `src/app.py`.  The Python code is shallowly
embedded below: Python runtime values reaching the engine are modelled by
`PyVal`, Python exceptions by `PyError` (fallible code returns `Except`),
Python floats by exact decimal numbers (`PyFloat`, an integer mantissa with a
power-of-ten scale; IEEE-754 rounding is outside the model, every concrete
number in the claims is exactly representable), and the `thefuzz`/`rapidfuzz`
scoring functions by exact rational scores computed with integer arithmetic.
String primitives (`lower`, `strip`, `split`, substring search) are
re-implemented on `List Char` so that every definition evaluates inside the
kernel; they agree with the CPython primitives on the ASCII texts this engine
processes.
-/

namespace DocValidator

/-- Python runtime values that can reach the validation engine: `None`,
strings, ints and lists (the extractors hand the engine JSON-shaped data). -/
inductive PyVal where
  | none
  | str (s : String)
  | int (n : Int)
  | list (xs : List PyVal)

/-- The Python exception classes that the embedded code can raise. -/
inductive PyError where
  | typeError
  | valueError
  | attributeError
deriving DecidableEq

/-- Python whitespace characters (`str.strip`, `str.split`, regex `\s`),
restricted to the ASCII range handled by this engine. -/
def isPySpace (c : Char) : Bool :=
  c = ' ' ∨ c = '\t' ∨ c = '\n' ∨ c = '\r' ∨ c = '\x0b' ∨ c = '\x0c'

/-- Python `str.strip()` on the leading side. -/
def dropLeadingSpace (l : List Char) : List Char :=
  l.dropWhile isPySpace

/-- Python `str.strip()`: remove leading and trailing whitespace. -/
def pyStrip (s : String) : String :=
  String.mk ((((dropLeadingSpace s.data).reverse).dropWhile isPySpace).reverse)

/-- Python `str.lower()` (ASCII range). -/
def pyLower (s : String) : String :=
  String.mk (s.data.map Char.toLower)

/-- Python `str.upper()` (ASCII range). -/
def pyUpper (s : String) : String :=
  String.mk (s.data.map Char.toUpper)

/-- Splitter used to model Python `str.split()` / `re.split` with a
separator class: cut the character list at separators, dropping empty
pieces (Python `split()` with no argument and the `if v` filters in the
source both discard empties). -/
def wordsByAux (p : Char → Bool) : List Char → List Char → List String
  | [], acc => if acc.isEmpty then [] else [String.mk acc.reverse]
  | c :: rest, acc =>
      if p c then
        if acc.isEmpty then wordsByAux p rest []
        else String.mk acc.reverse :: wordsByAux p rest []
      else wordsByAux p rest (c :: acc)

/-- Python `str.split()` (split on whitespace runs, no empty tokens). -/
def pySplitWs (s : String) : List String :=
  wordsByAux isPySpace s.data []

/-- Model of `re.split(r'[\s,]+', value)` followed by the `if v` filter in
`validate_container_field.to_set`: tokens separated by whitespace/comma runs. -/
def splitWsComma (s : String) : List String :=
  wordsByAux (fun c => isPySpace c || c = ',') s.data []

/-- Join a list of strings with a separator (Python `sep.join(...)`). -/
def joinSep (sep : String) : List String → String
  | [] => ""
  | [x] => x
  | x :: xs => x ++ sep ++ joinSep sep xs

/-- Code-point lexicographic comparison of character lists, the order Python
`sorted` uses on strings. -/
def charListLe : List Char → List Char → Bool
  | [], _ => true
  | _ :: _, [] => false
  | a :: as, b :: bs =>
      if a.toNat < b.toNat then true
      else if b.toNat < a.toNat then false
      else charListLe as bs

/-- Python `s1 <= s2` on strings. -/
def strLe (a b : String) : Bool :=
  charListLe a.data b.data

/-- Insertion into a `strLe`-sorted list. -/
def insertStr (x : String) : List String → List String
  | [] => [x]
  | y :: ys => if strLe x y then x :: y :: ys else y :: insertStr x ys

/-- Python `sorted` on a list of strings (insertion sort; stable, and on the
duplicate-free token sets used below it is exactly the sorted order). -/
def sortStrs (l : List String) : List String :=
  l.foldr insertStr []

/-- Substring search on character lists (Python `needle in haystack`). -/
def listContainsSub (needle : List Char) : List Char → Bool
  | [] => needle.isEmpty
  | c :: rest => needle.isPrefixOf (c :: rest) || listContainsSub needle rest

/-- Python `needle in haystack` for strings. -/
def strContains (haystack needle : String) : Bool :=
  listContainsSub needle.data haystack.data

/-- Value of a list of ASCII digit characters. -/
def digitsToNat (l : List Char) : Nat :=
  l.foldl (fun a c => 10 * a + (c.toNat - 48)) 0

mutual

/-- Python `repr(value)` for the modelled values (used by `str` on lists).
Escaping of quotes, backslashes and control characters inside string `repr`
is not reproduced; the engine only ever feeds these texts to normalizers
that delete every such character, so the difference is invisible to it. -/
def pyRepr : PyVal → String
  | PyVal.none => "None"
  | PyVal.str s => "\x27" ++ s ++ "\x27"
  | PyVal.int n => toString n
  | PyVal.list xs => "[" ++ pyReprList xs ++ "]"

/-- Comma-separated element `repr`s of a Python list. -/
def pyReprList : List PyVal → String
  | [] => ""
  | [x] => pyRepr x
  | x :: xs => pyRepr x ++ ", " ++ pyReprList xs

end

/-- Python `str(value)` for the modelled values. -/
def pyStr : PyVal → String
  | PyVal.str s => s
  | PyVal.none => "None"
  | PyVal.int n => toString n
  | PyVal.list xs => "[" ++ pyReprList xs ++ "]"

/-- A parsed Python float, modelled exactly: the value `num / 10 ^ exp`.
Every literal the engine parses is a finite decimal, so this is the exact
value CPython's `float()` rounds to double precision; IEEE-754 rounding is
outside the model. -/
structure PyFloat where
  num : Int
  exp : Nat
deriving DecidableEq

/-- The rational value of a parsed float. -/
def PyFloat.toRat (d : PyFloat) : ℚ :=
  (d.num : ℚ) / (10 : ℚ) ^ d.exp

/-- Python `int(f)`: truncation toward zero. -/
def PyFloat.trunc (d : PyFloat) : Int :=
  match d.num with
  | Int.ofNat m => Int.ofNat (m / 10 ^ d.exp)
  | Int.negSucc m => -Int.ofNat ((m + 1) / 10 ^ d.exp)

/-- Unsigned part of Python `float(s)` on strings drawn from the numeric
normalizer's output alphabet (digits, dots, minus signs): an optional integer
part, an optional single dot, an optional fraction part, at least one digit,
nothing else. -/
def parseUnsigned (body : List Char) : Option (Nat × Nat) :=
  let parts := body.span (fun c => c ≠ '.')
  match parts.2 with
  | [] =>
      if parts.1 ≠ [] ∧ parts.1.all Char.isDigit then some (digitsToNat parts.1, 0)
      else Option.none
  | _ :: fp =>
      if parts.1.all Char.isDigit ∧ fp.all Char.isDigit ∧ (parts.1 ≠ [] ∨ fp ≠ [])
      then some (digitsToNat (parts.1 ++ fp), fp.length)
      else Option.none

/-- Python `float(s)` for strings over the numeric normalizer's output
alphabet: an optional leading minus sign followed by a decimal literal.
Letter forms (`inf`, `nan`, exponents) cannot occur, because the normalizer
deletes every character other than digits, dots and minus signs. -/
def parseNumeric (s : String) : Option PyFloat :=
  match s.data with
  | '-' :: body => (parseUnsigned body).map (fun p => PyFloat.mk (-(p.1 : Int)) p.2)
  | body => (parseUnsigned body).map (fun p => PyFloat.mk (p.1 : Int) p.2)

/-- One inner step of the longest-common-subsequence dynamic programme:
given the next character `c` of the first string, the remaining characters of
the second string, the previous row from index `j+1` on, the diagonal value
`prev[j]` and the value `curr[j]` just computed, produce `curr[j+1 ..]`. -/
def lcsRowAux (c : Char) : List Char → List Nat → Nat → Nat → List Nat
  | [], _, _, _ => []
  | _ :: _, [], _, _ => []
  | b :: bs, p :: ps, diag, left =>
      let cur := if c = b then diag + 1 else max left p
      cur :: lcsRowAux c bs ps p cur

/-- Advance the LCS dynamic programme by one character of the first string. -/
def lcsNextRow (c : Char) (b : List Char) (prevRow : List Nat) : List Nat :=
  0 :: lcsRowAux c b prevRow.tail 0 0

/-- Length of the longest common subsequence of two character lists, by the
standard row-by-row dynamic programme (structural recursion only, so the
kernel can evaluate it). -/
def lcsLen (a b : List Char) : Nat :=
  (a.foldl (fun row c => lcsNextRow c b row) (List.replicate (b.length + 1) 0)).getLastD 0

/-- The `rapidfuzz` Indel similarity of two strings as an exact percentage
fraction `(p, q)` standing for `p / q`: `100 * (1 - dist / (m + n))` where
the Indel distance is `m + n - 2 * lcs`.  Two empty strings count as fully
similar. -/
def indelSimFrac (a b : String) : Nat × Nat :=
  let total := a.data.length + b.data.length
  if total = 0 then (100, 1) else (200 * lcsLen a.data b.data, total)

/-- Maximum of two percentage fractions with positive denominators. -/
def fracMax (x y : Nat × Nat) : Nat × Nat :=
  if x.1 * y.2 < y.1 * x.2 then y else x

/-- Python `round` (banker's rounding) of the fraction `p / q`, `q > 0`. -/
def bankersRound (p q : Nat) : Nat :=
  let d := p / q
  let r := p % q
  if 2 * r < q then d
  else if q < 2 * r then d + 1
  else if d % 2 = 0 then d else d + 1

/-- The `thefuzz.utils.ascii_only` step (`force_ascii=True` is the default
for the scorers this engine calls): drop every non-ASCII character of
`str(value)`. -/
def asciiOnly (s : String) : String :=
  String.mk (s.data.filter (fun c => c.toNat < 128))

/-- The `rapidfuzz.utils.default_process` step: lowercase, replace every
non-alphanumeric character with a space, strip. -/
def defaultProcess (s : String) : String :=
  pyStrip (String.mk (s.data.map (fun c =>
    let cl := Char.toLower c
    if ('a' ≤ cl ∧ cl ≤ 'z') ∨ cl.isDigit then cl else ' ')))

/-- The full pre-processing `thefuzz` applies to each scorer argument
(`utils.full_process` with `force_ascii=True` on `str(value)`). -/
def fullProcess (v : PyVal) : String :=
  defaultProcess (asciiOnly (pyStr v))

/-- Model of `thefuzz.fuzz.token_set_ratio` (which delegates to `rapidfuzz`):
split both processed strings into duplicate-free word sets, and return
the rounded maximum Indel similarity among sorted-intersection-vs-combined
pairings, exactly as the token-set algorithm computes it.  An empty token
set on either side scores 0; a non-empty intersection with one side fully
contained scores 100. -/
def tokenSetScore (v1 v2 : PyVal) : Nat :=
  let ta := (pySplitWs (fullProcess v1)).dedup
  let tb := (pySplitWs (fullProcess v2)).dedup
  if ta = [] ∨ tb = [] then 0
  else
    let inter := ta.filter (fun t => t ∈ tb)
    let diffAB := ta.filter (fun t => ¬ t ∈ tb)
    let diffBA := tb.filter (fun t => ¬ t ∈ ta)
    if inter ≠ [] ∧ (diffAB = [] ∨ diffBA = []) then 100
    else
      let t0 := joinSep " " (sortStrs inter)
      let t1 := pyStrip (t0 ++ " " ++ joinSep " " (sortStrs diffAB))
      let t2 := pyStrip (t0 ++ " " ++ joinSep " " (sortStrs diffBA))
      let best := fracMax (indelSimFrac t0 t1)
        (fracMax (indelSimFrac t0 t2) (indelSimFrac t1 t2))
      bankersRound best.1 best.2

/-- Model of `thefuzz.fuzz.token_sort_ratio`: sort the words of each
processed string (duplicates kept), join with single spaces, and return the
rounded Indel similarity of the two joined strings. -/
def tokenSortScore (v1 v2 : PyVal) : Nat :=
  let s1 := joinSep " " (sortStrs (pySplitWs (fullProcess v1)))
  let s2 := joinSep " " (sortStrs (pySplitWs (fullProcess v2)))
  let f := indelSimFrac s1 s2
  bankersRound f.1 f.2

/-- Rendering of a Python set of strings by `str` (fed to the fuzz scorer by
`validate_container_field`).  CPython's set iteration order is unspecified,
so the elements are canonicalized here as sorted and deduplicated; the
token-set scorer downstream depends only on the resulting word set, which is
the same for every iteration order. -/
def pySetRepr (xs : List String) : String :=
  match xs.dedup with
  | [] => "set()"
  | l => "\x7b" ++ joinSep ", " ((sortStrs l).map (fun s => "\x27" ++ s ++ "\x27")) ++ "\x7d"

/-- The status constants of `ValidationStatus` in `src/processors/validator.py`. -/
def ValidationStatus.MATCHED_EXACTLY : String := "MATCHED_EXACTLY"

/-- Status constant `MATCHED_WITH_TOLERANCE`. -/
def ValidationStatus.MATCHED_WITH_TOLERANCE : String := "MATCHED_WITH_TOLERANCE"

/-- Status constant `MATCHED_CONTENT_ONLY`. -/
def ValidationStatus.MATCHED_CONTENT_ONLY : String := "MATCHED_CONTENT_ONLY"

/-- Status constant `MATCHED_MOSTLY`. -/
def ValidationStatus.MATCHED_MOSTLY : String := "MATCHED_MOSTLY"

/-- Status constant `DOES_NOT_MATCH`. -/
def ValidationStatus.DOES_NOT_MATCH : String := "DOES_NOT_MATCH"

/-- Status constant `TYPE_ERROR`. -/
def ValidationStatus.TYPE_ERROR : String := "TYPE_ERROR"

/-- Status constant `MISSING_REQUIRED_FIELD`. -/
def ValidationStatus.MISSING_REQUIRED_FIELD : String := "MISSING_REQUIRED_FIELD"

/-- Status constant `NOT_APPLICABLE`. -/
def ValidationStatus.NOT_APPLICABLE : String := "NOT_APPLICABLE"

/-- Field list `MULTI_LINE_FIELDS` from the source. -/
def MULTI_LINE_FIELDS : List String :=
  ["exporter_address", "consignee_details", "notify_party_details",
   "invoice_party_details", "banking_details"]

/-- Field list `INTEGER_FIELDS` from the source. -/
def INTEGER_FIELDS : List String := ["total_cartons"]

/-- Field list `FLOAT_FIELDS` from the source. -/
def FLOAT_FIELDS : List String := ["total_gross_mass_kg", "total_net_mass_kg"]

/-- Field list `CURRENCY_FIELDS` from the source. -/
def CURRENCY_FIELDS : List String := ["total_value"]

/-- Field list `CONTAINER_FIELDS` from the source. -/
def CONTAINER_FIELDS : List String := ["container_number"]

/-- Field list `SIMPLE_TEXT_FIELDS` from the source (note that
`port_of_destination` also appears in `PARTIAL_MATCH_FIELDS`). -/
def SIMPLE_TEXT_FIELDS : List String := ["vessel_name", "voyage", "port_of_destination"]

/-- Field list `PARTIAL_MATCH_FIELDS` from the source. -/
def PARTIAL_MATCH_FIELDS : List String := ["port_of_destination"]

/-- The `VALIDATION_PROFILES` table: document type to `required_fields`. -/
def VALIDATION_PROFILES : List (String × List String) :=
  [("bill_of_lading",
    ["exporter_address", "consignee_details", "notify_party_details",
     "container_number", "vessel_name", "voyage", "port_of_destination",
     "total_cartons", "total_gross_mass_kg", "total_net_mass_kg"]),
   ("phyto_certificate",
    ["exporter_address", "consignee_details", "container_number", "port_of_destination",
     "total_cartons", "total_net_mass_kg", "total_gross_mass_kg"]),
   ("eur1",
    ["exporter_address", "consignee_details", "vessel_name", "voyage", "port_of_destination",
     "container_number", "total_cartons", "total_gross_mass_kg", "total_net_mass_kg"]),
   ("certificate_of_origin",
    ["exporter_address", "consignee_details", "container_number",
     "total_gross_mass_kg", "total_cartons"]),
   ("packing_list",
    ["exporter_address", "consignee_details", "notify_party_details",
     "invoice_party_details", "container_number", "vessel_name", "port_of_destination",
     "total_cartons", "total_gross_mass_kg", "total_net_mass_kg"]),
   ("ppecb",
    ["exporter_address", "container_number", "voyage", "vessel_name", "port_of_destination",
     "total_cartons", "total_gross_mass_kg", "total_net_mass_kg"])]

/-- `VALIDATION_PROFILES.get(target_doc_type, {}).get("required_fields", [])`:
the required-field set of a document type, empty for unknown types. -/
def required_fields_for (target_doc_type : String) : List String :=
  ((VALIDATION_PROFILES.find? (fun p => p.1 = target_doc_type)).map Prod.snd).getD []

/-- The result record a field validator returns.  The human-readable `notes`
text of the source is display-only prose and is not modelled; `score` is
`none` where the source omits the key or stores `None`.  The dispatcher fills
in `source_value` / `target_value` afterwards, so validators leave them
`none`. -/
structure FieldResult where
  status : String
  score : Option Nat
  source_value : Option PyVal
  target_value : Option PyVal

/-- A validator verdict before the dispatcher attaches the raw values. -/
def mkRes (status : String) (score : Option Nat) : FieldResult :=
  FieldResult.mk status score Option.none Option.none

/-- The dispatcher's
`field_result["source_value"] = ...; field_result["target_value"] = ...`. -/
def withValues (source_value target_value : PyVal) (r : FieldResult) : FieldResult :=
  FieldResult.mk r.status r.score (some source_value) (some target_value)

/-- The source's `normalize_string_for_fuzzy` (applied by the validators to
`str(value)`): lowercase, replace the punctuation class `[\n\t,.:;()]` with
spaces, delete every character outside `[a-z0-9\s]`, collapse whitespace
runs and strip. -/
def normalize_string_for_fuzzy (text : String) : String :=
  let lowered := text.data.map Char.toLower
  let depunct := lowered.map (fun c =>
    if c ∈ ['\n', '\t', ',', '.', ':', ';', '(', ')'] then ' ' else c)
  let kept := depunct.filter (fun c => ('a' ≤ c ∧ c ≤ 'z') ∨ c.isDigit ∨ isPySpace c)
  joinSep " " (wordsByAux isPySpace kept [])

/-- The source's `_normalize_for_numeric`: `str(text)`, drop commas, then
keep only digits, dots and minus signs (`re.sub(r'[^\d.-]', '', text)`). -/
def normalize_for_numeric (text : PyVal) : String :=
  let s := (pyStr text).data.filter (fun c => c ≠ ',')
  String.mk (s.filter (fun c => c.isDigit ∨ c = '.' ∨ c = '-'))

/-- `validate_integer_field`: numeric-normalize both sides, parse with
`int(float(...))`, compare.  The `except (ValueError, TypeError,
AttributeError)` clause turns any parse failure into TYPE_ERROR. -/
def validate_integer_field (source_value target_value : PyVal) : FieldResult :=
  let source_str := normalize_for_numeric source_value
  let target_str := normalize_for_numeric target_value
  match parseNumeric source_str, parseNumeric target_str with
  | some source_float, some target_float =>
      if source_float.trunc = target_float.trunc then
        mkRes ValidationStatus.MATCHED_EXACTLY (some 100)
      else
        mkRes ValidationStatus.DOES_NOT_MATCH (some 0)
  | _, _ => mkRes ValidationStatus.TYPE_ERROR Option.none

/-- `validate_float_field` (only ever invoked with the default
`tolerance=0.01`): numeric-normalize, parse as float, exact equality, then
`abs(source_float - target_float) <= source_float * tolerance`.  The
comparisons are embedded exactly, cross-multiplied by the positive factor
`100 * 10 ^ (source.exp + target.exp)` so that they are integer
comparisons on the decimal mantissas. -/
def validate_float_field (source_value target_value : PyVal) : FieldResult :=
  let source_str := normalize_for_numeric source_value
  let target_str := normalize_for_numeric target_value
  match parseNumeric source_str, parseNumeric target_str with
  | some source_float, some target_float =>
      let lhs := source_float.num * (10 : Int) ^ target_float.exp
      let rhs := target_float.num * (10 : Int) ^ source_float.exp
      if lhs = rhs then
        mkRes ValidationStatus.MATCHED_EXACTLY (some 100)
      else if 100 * ((lhs - rhs).natAbs : Int) ≤ lhs then
        mkRes ValidationStatus.MATCHED_WITH_TOLERANCE (some 99)
      else
        mkRes ValidationStatus.DOES_NOT_MATCH (some 0)
  | _, _ => mkRes ValidationStatus.TYPE_ERROR Option.none

/-- The call `_normalize_for_numeric(value, keep_decimal=True)` appearing in
`validate_currency_field`: `_normalize_for_numeric` accepts no `keep_decimal`
parameter, so CPython raises `TypeError` at the call site, before the
function body runs. -/
def callNormalizeKeepDecimal (_text : PyVal) : Except PyError String :=
  Except.error PyError.typeError

/-- `validate_currency_field`: the body first calls
`_normalize_for_numeric(source_value, keep_decimal=True)`, which raises
`TypeError` (unexpected keyword argument), and the surrounding
`except (ValueError, TypeError)` converts it to a TYPE_ERROR verdict — so the
comparison code is unreachable and every invocation yields TYPE_ERROR. -/
def validate_currency_field (source_value target_value : PyVal) : FieldResult :=
  let attempt : Except PyError FieldResult := do
    let norm_source ← callNormalizeKeepDecimal source_value
    let norm_target ← callNormalizeKeepDecimal target_value
    if norm_source = norm_target then
      pure (mkRes ValidationStatus.MATCHED_EXACTLY (some 100))
    else
      pure (mkRes ValidationStatus.DOES_NOT_MATCH (some 0))
  match attempt with
  | Except.ok r => r
  | Except.error _ => mkRes ValidationStatus.TYPE_ERROR Option.none

/-- The element conversion `v.strip().upper()` inside
`validate_container_field.to_set` for a list element: non-string elements
have no `strip` attribute, so they raise `AttributeError` (this validator
has no `try`/`except`). -/
def stripUpperElem : PyVal → Except PyError String
  | PyVal.str s => Except.ok (pyUpper (pyStrip s))
  | _ => Except.error PyError.attributeError

/-- `validate_container_field.to_set`: list values map each element through
`strip().upper()` (raising `AttributeError` on non-strings), string values
are split on whitespace/comma runs, anything else becomes the empty set.
The resulting Python set is modelled as the token list; set semantics are
applied through `setEqB` / `pySetRepr` at the use sites. -/
def to_set : PyVal → Except PyError (List String)
  | PyVal.list xs => xs.mapM stripUpperElem
  | PyVal.str s => Except.ok ((splitWsComma s).map (fun v => pyUpper (pyStrip v)))
  | _ => Except.ok []

/-- Python set equality on the modelled token lists. -/
def setEqB (a b : List String) : Bool :=
  a.all (fun x => x ∈ b) && b.all (fun x => x ∈ a)

/-- `validate_container_field`: set equality, else a token-set fuzz score of
the two sets' `str()` renderings, thresholded at 85.  Exceptions from
`to_set` propagate — there is no handler. -/
def validate_container_field (source_value target_value : PyVal) : Except PyError FieldResult := do
  let source_set ← to_set source_value
  let target_set ← to_set target_value
  if setEqB source_set target_set then
    pure (mkRes ValidationStatus.MATCHED_EXACTLY (some 100))
  else
    let score := tokenSetScore (PyVal.str (pySetRepr source_set)) (PyVal.str (pySetRepr target_set))
    if 85 < score then pure (mkRes ValidationStatus.MATCHED_MOSTLY (some score))
    else pure (mkRes ValidationStatus.DOES_NOT_MATCH (some score))

/-- `validate_partial_match_field`: fuzzy-normalize `str()` of both sides,
exact equality, else token-set score thresholded at 80. -/
def validate_partial_match_field (source_value target_value : PyVal) : FieldResult :=
  let norm_source := normalize_string_for_fuzzy (pyStr source_value)
  let norm_target := normalize_string_for_fuzzy (pyStr target_value)
  if norm_source = norm_target then
    mkRes ValidationStatus.MATCHED_EXACTLY (some 100)
  else
    let score := tokenSetScore (PyVal.str norm_source) (PyVal.str norm_target)
    if 80 < score then mkRes ValidationStatus.MATCHED_MOSTLY (some score)
    else mkRes ValidationStatus.DOES_NOT_MATCH (some score)

/-- `validate_generic_field`: fuzzy-normalize, exact equality gives
MATCHED_CONTENT_ONLY, else the maximum of token-sort and token-set scores,
thresholded at 95 and 75 (both middle branches yield MATCHED_MOSTLY).  The
`is_multi_line` flag is accepted but, as in the source, does not influence
the verdict. -/
def validate_generic_field (source_value target_value : PyVal) (_is_multi_line : Bool) : FieldResult :=
  let norm_source := normalize_string_for_fuzzy (pyStr source_value)
  let norm_target := normalize_string_for_fuzzy (pyStr target_value)
  if norm_source = norm_target then
    mkRes ValidationStatus.MATCHED_CONTENT_ONLY (some 99)
  else
    let sort_score := tokenSortScore (PyVal.str norm_source) (PyVal.str norm_target)
    let set_score := tokenSetScore (PyVal.str norm_source) (PyVal.str norm_target)
    let final_score := max sort_score set_score
    if 95 < final_score then mkRes ValidationStatus.MATCHED_MOSTLY (some final_score)
    else if 75 < final_score then mkRes ValidationStatus.MATCHED_MOSTLY (some final_score)
    else mkRes ValidationStatus.DOES_NOT_MATCH (some final_score)

/-- `target_doc.get(key)`: first matching entry, `None` when absent. -/
def pyGet (d : List (String × PyVal)) (key : String) : PyVal :=
  ((d.find? (fun p => p.1 = key)).map Prod.snd).getD PyVal.none

/-- The dispatcher's missing-value test
`target_value is None or str(target_value).strip() == ""`. -/
def isMissingTarget : PyVal → Bool
  | PyVal.none => true
  | v => pyStrip (pyStr v) = ""

/-- The dispatcher's `elif` chain routing a present value to its validator,
in the source's precedence order (integer, float, currency, container,
partial-match, generic). -/
def dispatchField (key : String) (source_value target_value : PyVal) : Except PyError FieldResult :=
  if key ∈ INTEGER_FIELDS then Except.ok (validate_integer_field source_value target_value)
  else if key ∈ FLOAT_FIELDS then Except.ok (validate_float_field source_value target_value)
  else if key ∈ CURRENCY_FIELDS then Except.ok (validate_currency_field source_value target_value)
  else if key ∈ CONTAINER_FIELDS then validate_container_field source_value target_value
  else if key ∈ PARTIAL_MATCH_FIELDS then Except.ok (validate_partial_match_field source_value target_value)
  else Except.ok (validate_generic_field source_value target_value (MULTI_LINE_FIELDS.contains key))

/-- One iteration of the dispatcher's main loop for the field `key` with
source value `source_value`: the missing-value branch records
MISSING_REQUIRED_FIELD / NOT_APPLICABLE with a null score and no validator
call; otherwise the routed validator's verdict gets the raw values
attached. -/
def processEntry (required_fields_for_target : List String)
    (target_doc : List (String × PyVal)) (key : String) (source_value : PyVal) :
    Except PyError FieldResult :=
  let target_value := pyGet target_doc key
  if isMissingTarget target_value then
    Except.ok (FieldResult.mk
      (if key ∈ required_fields_for_target then ValidationStatus.MISSING_REQUIRED_FIELD
       else ValidationStatus.NOT_APPLICABLE)
      Option.none (some source_value) (some target_value))
  else
    match dispatchField key source_value target_value with
    | Except.error e => Except.error e
    | Except.ok field_result => Except.ok (withValues source_value target_value field_result)

/-- The dispatcher's loop over the source-of-truth entries, building the
report in iteration order.  A Python dict has distinct keys, so the
assignment `validation_report[key] = ...` appends a fresh entry on every
iteration; an uncaught validator exception aborts the loop. -/
def validate_documents_go (required_fields_for_target : List String)
    (target_doc : List (String × PyVal)) :
    List (String × PyVal) → Except PyError (List (String × FieldResult))
  | [] => Except.ok []
  | (key, source_value) :: rest =>
      match processEntry required_fields_for_target target_doc key source_value with
      | Except.error e => Except.error e
      | Except.ok r =>
          match validate_documents_go required_fields_for_target target_doc rest with
          | Except.error e => Except.error e
          | Except.ok report => Except.ok ((key, r) :: report)

/-- `validate_documents(source_of_truth, target_doc, target_doc_type)`:
look up the profile, then run the per-field loop over the source of truth. -/
def validate_documents (source_of_truth target_doc : List (String × PyVal))
    (target_doc_type : String) : Except PyError (List (String × FieldResult)) :=
  validate_documents_go (required_fields_for target_doc_type) target_doc source_of_truth

/-- `ci_data.get(key, default)` for the banking check. -/
def pyGetD (d : List (String × PyVal)) (key : String) (default : PyVal) : PyVal :=
  ((d.find? (fun p => p.1 = key)).map Prod.snd).getD default

/-- The result record of `validate_banking_details` in `src/app.py`.  The
`notes` prose is not modelled; `banking_details` / `total_value` are absent
(`none`) in the NOT_APPLICABLE verdict, exactly as in the source dict. -/
structure BankingResult where
  status : String
  banking_details : Option String
  total_value : Option String
deriving DecidableEq

/-- `validate_banking_details(ci_data)` from `src/app.py`: read
`banking_details` (default `""`) and `str` of `total_value` (default `""`),
lowercase the banking text — an `AttributeError` if the stored value is not
a string, e.g. `None` — then look for the keywords `euro`, `usd`, `uk`/`gbp`
in that priority order, and check the matching currency symbol against the
total-value text. -/
def validate_banking_details (ci_data : List (String × PyVal)) : Except PyError BankingResult :=
  let banking_value := pyGetD ci_data "banking_details" (PyVal.str "")
  let total_value_text := pyStr (pyGetD ci_data "total_value" (PyVal.str ""))
  match banking_value with
  | PyVal.str banking_details_text =>
      let banking_details_lower := pyLower banking_details_text
      let expected_currency : Option String :=
        if strContains banking_details_lower "euro" then some "EUR"
        else if strContains banking_details_lower "usd" then some "USD"
        else if strContains banking_details_lower "uk" || strContains banking_details_lower "gbp" then some "GBP"
        else Option.none
      match expected_currency with
      | Option.none =>
          Except.ok (BankingResult.mk "NOT_APPLICABLE" Option.none Option.none)
      | some currency =>
          let actual_currency_found :=
            (currency = "EUR" && strContains total_value_text "€") ||
            (currency = "USD" && strContains total_value_text "$") ||
            (currency = "GBP" && strContains total_value_text "£")
          if actual_currency_found then
            Except.ok (BankingResult.mk "MATCH" (some banking_details_text) (some total_value_text))
          else
            Except.ok (BankingResult.mk "MISMATCH" (some banking_details_text) (some total_value_text))
  | _ => Except.error PyError.attributeError

end DocValidator


namespace DocValidator

theorem floatEq_iff (s t : PyFloat) :
    s.num * (10 : Int) ^ t.exp = t.num * (10 : Int) ^ s.exp ↔ s.toRat = t.toRat := by
  unfold PyFloat.toRat
  rw [div_eq_div_iff (by positivity) (by positivity)]
  constructor
  · intro h; exact_mod_cast h
  · intro h; exact_mod_cast h

theorem floatTol_iff (s t : PyFloat) :
    100 * (((s.num * (10 : Int) ^ t.exp - t.num * (10 : Int) ^ s.exp).natAbs : Int)) ≤
        s.num * (10 : Int) ^ t.exp ↔
      |s.toRat - t.toRat| ≤ s.toRat * (1 / 100) := by
  have hD : (0 : ℚ) < 10 ^ s.exp * 10 ^ t.exp := by positivity
  have key : s.toRat - t.toRat =
      ((s.num * (10 : Int) ^ t.exp - t.num * (10 : Int) ^ s.exp : Int) : ℚ) /
        (10 ^ s.exp * 10 ^ t.exp) := by
    unfold PyFloat.toRat
    push_cast
    field_simp
    ring
  have key2 : s.toRat * (1 / 100) =
      ((s.num * (10 : Int) ^ t.exp : Int) : ℚ) / (100 * (10 ^ s.exp * 10 ^ t.exp)) := by
    unfold PyFloat.toRat
    push_cast
    field_simp
    ring
  rw [key, key2, abs_div, abs_of_pos hD, div_le_div_iff₀ hD (by positivity)]
  rw [show |((s.num * (10 : Int) ^ t.exp - t.num * (10 : Int) ^ s.exp : Int) : ℚ)| *
        (100 * (10 ^ s.exp * 10 ^ t.exp)) =
      (|((s.num * (10 : Int) ^ t.exp - t.num * (10 : Int) ^ s.exp : Int) : ℚ)| * 100) *
        (10 ^ s.exp * 10 ^ t.exp) from by ring]
  rw [mul_le_mul_right hD]
  rw [← Int.cast_abs]
  rw [Int.abs_eq_natAbs]
  constructor
  · intro h
    have h' : (((s.num * (10 : Int) ^ t.exp - t.num * (10 : Int) ^ s.exp).natAbs : Int) * 100 : Int) ≤
        s.num * (10 : Int) ^ t.exp := by linarith
    exact_mod_cast h'
  · intro h
    have h' : (((s.num * (10 : Int) ^ t.exp - t.num * (10 : Int) ^ s.exp).natAbs : Int) * 100 : Int) ≤
        s.num * (10 : Int) ^ t.exp := by exact_mod_cast h
    linarith

theorem floatZero_iff (s : PyFloat) : s.toRat = 0 ↔ s.num = 0 := by
  unfold PyFloat.toRat
  rw [div_eq_zero_iff]
  have h10 : ((10 : ℚ) ^ s.exp) ≠ 0 := by positivity
  simp [h10]

end DocValidator

namespace DocValidator

/-- A value is container-safe when turning it into a container set cannot
raise: every element of a list value is a string (other shapes never raise
in `to_set`). -/
def containerSafe : PyVal → Prop
  | PyVal.list xs => ∀ x ∈ xs, ∃ s, x = PyVal.str s
  | _ => True

theorem to_set_ok (v : PyVal) (h : containerSafe v) : ∃ l, to_set v = Except.ok l := by
  cases v with
  | list xs =>
      induction xs with
      | nil => exact ⟨[], rfl⟩
      | cons x rest ih =>
          obtain ⟨s, hs⟩ := h x (List.mem_cons_self x rest)
          obtain ⟨l, hl⟩ := ih (fun y hy => h y (List.mem_cons_of_mem x hy))
          subst hs
          refine ⟨pyUpper (pyStrip s) :: l, ?_⟩
          simp only [to_set, List.mapM_cons, stripUpperElem]
          simp only [to_set] at hl
          rw [hl]
          rfl
  | str s => exact ⟨_, rfl⟩
  | none => exact ⟨[], rfl⟩
  | int n => exact ⟨[], rfl⟩

theorem dispatchField_ok (key : String) (sv tv : PyVal)
    (hs : key ∈ CONTAINER_FIELDS → containerSafe sv)
    (ht : key ∈ CONTAINER_FIELDS → containerSafe tv) :
    ∃ r, dispatchField key sv tv = Except.ok r := by
  unfold dispatchField
  split
  · exact ⟨_, rfl⟩
  · split
    · exact ⟨_, rfl⟩
    · split
      · exact ⟨_, rfl⟩
      · split
        · rename_i hin
          obtain ⟨ls, hls⟩ := to_set_ok sv (hs hin)
          obtain ⟨lt, hlt⟩ := to_set_ok tv (ht hin)
          unfold validate_container_field
          rw [hls, hlt]
          dsimp only [Bind.bind, Except.bind]
          split
          · exact ⟨_, rfl⟩
          · split
            · exact ⟨_, rfl⟩
            · exact ⟨_, rfl⟩
        · split
          · exact ⟨_, rfl⟩
          · exact ⟨_, rfl⟩

end DocValidator

namespace DocValidator

theorem processEntry_ok (req : List String) (tgt : List (String × PyVal))
    (key : String) (sv : PyVal)
    (hs : key ∈ CONTAINER_FIELDS → containerSafe sv)
    (ht : ∀ p ∈ tgt, p.1 ∈ CONTAINER_FIELDS → containerSafe p.2) :
    ∃ r, processEntry req tgt key sv = Except.ok r := by
  have htv : key ∈ CONTAINER_FIELDS → containerSafe (pyGet tgt key) := by
    intro hk
    unfold pyGet
    cases hf : tgt.find? (fun p => p.1 = key) with
    | none => simp [containerSafe]
    | some p =>
        have hp : p ∈ tgt := List.mem_of_find?_eq_some hf
        have hpk : p.1 = key := by
          have := List.find?_some hf
          simpa using this
        have := ht p hp (by rw [hpk]; exact hk)
        simpa using this
  by_cases hmiss : isMissingTarget (pyGet tgt key) = true
  · refine ⟨FieldResult.mk
      (if key ∈ req then ValidationStatus.MISSING_REQUIRED_FIELD
       else ValidationStatus.NOT_APPLICABLE)
      Option.none (some sv) (some (pyGet tgt key)), ?_⟩
    simp [processEntry, hmiss]
  · obtain ⟨r, hr⟩ := dispatchField_ok key sv (pyGet tgt key) hs htv
    refine ⟨withValues sv (pyGet tgt key) r, ?_⟩
    simp [processEntry, hmiss, hr]

theorem validate_documents_go_ok (req : List String) (tgt : List (String × PyVal))
    (src : List (String × PyVal))
    (hsrc : ∀ p ∈ src, p.1 ∈ CONTAINER_FIELDS → containerSafe p.2)
    (htgt : ∀ p ∈ tgt, p.1 ∈ CONTAINER_FIELDS → containerSafe p.2) :
    ∃ report, validate_documents_go req tgt src = Except.ok report := by
  induction src with
  | nil => exact ⟨[], rfl⟩
  | cons hd tl ih =>
      obtain ⟨r, hr⟩ := processEntry_ok req tgt hd.1 hd.2
        (hsrc hd (List.mem_cons_self hd tl)) htgt
      obtain ⟨report, hrep⟩ := ih (fun p hp => hsrc p (List.mem_cons_of_mem hd hp))
      refine ⟨(hd.1, r) :: report, ?_⟩
      show validate_documents_go req tgt (hd :: tl) = _
      rw [show hd = (hd.1, hd.2) from rfl]
      unfold validate_documents_go
      rw [hr, hrep]

theorem validate_documents_go_keys (req : List String) (tgt : List (String × PyVal))
    (src : List (String × PyVal)) (report : List (String × FieldResult))
    (h : validate_documents_go req tgt src = Except.ok report) :
    report.map Prod.fst = src.map Prod.fst := by
  induction src generalizing report with
  | nil =>
      simp only [validate_documents_go] at h
      cases h
      rfl
  | cons hd tl ih =>
      rw [show hd = (hd.1, hd.2) from rfl] at h
      unfold validate_documents_go at h
      cases hp : processEntry req tgt hd.1 hd.2 with
      | error e => rw [hp] at h; cases h
      | ok r =>
          rw [hp] at h
          cases hg : validate_documents_go req tgt tl with
          | error e => rw [hg] at h; cases h
          | ok rep' =>
              rw [hg] at h
              cases h
              simp [ih rep' hg]

theorem validate_documents_go_entry (req : List String) (tgt : List (String × PyVal))
    (src : List (String × PyVal)) (report : List (String × FieldResult))
    (key : String) (sv : PyVal)
    (h : validate_documents_go req tgt src = Except.ok report)
    (hmem : (key, sv) ∈ src) :
    ∃ r, processEntry req tgt key sv = Except.ok r ∧ (key, r) ∈ report := by
  induction src generalizing report with
  | nil => cases hmem
  | cons hd tl ih =>
      obtain ⟨k', v'⟩ := hd
      unfold validate_documents_go at h
      cases hp : processEntry req tgt k' v' with
      | error e => rw [hp] at h; cases h
      | ok r =>
          rw [hp] at h
          cases hg : validate_documents_go req tgt tl with
          | error e => rw [hg] at h; cases h
          | ok rep' =>
              rw [hg] at h
              cases h
              rcases List.mem_cons.mp hmem with heq | htl
              · have h1 : key = k' := congrArg Prod.fst heq
                have h2 : sv = v' := congrArg Prod.snd heq
                subst h1
                subst h2
                exact ⟨r, hp, List.mem_cons_self _ _⟩
              · obtain ⟨r', hr', hmem'⟩ := ih rep' hg htl
                exact ⟨r', hr', List.mem_cons_of_mem _ hmem'⟩

end DocValidator

namespace DocValidator

theorem dispatchField_port (sv tv : PyVal) :
    dispatchField "port_of_destination" sv tv =
      Except.ok (validate_partial_match_field sv tv) := rfl

theorem processEntry_missing (req : List String) (tgt : List (String × PyVal))
    (key : String) (sv : PyVal) (h : isMissingTarget (pyGet tgt key) = true) :
    processEntry req tgt key sv = Except.ok (FieldResult.mk
      (if key ∈ req then ValidationStatus.MISSING_REQUIRED_FIELD
       else ValidationStatus.NOT_APPLICABLE)
      Option.none (some sv) (some (pyGet tgt key))) := by
  simp [processEntry, h]

theorem processEntry_port (req : List String) (tgt : List (String × PyVal)) (sv : PyVal)
    (h : isMissingTarget (pyGet tgt "port_of_destination") = false) :
    processEntry req tgt "port_of_destination" sv = Except.ok
      (withValues sv (pyGet tgt "port_of_destination")
        (validate_partial_match_field sv (pyGet tgt "port_of_destination"))) := by
  simp [processEntry, h, dispatchField_port]

/-- C1: the claim states that `validate_currency_field` compares the two
numeric normalizations and answers MATCHED_EXACTLY / DOES_NOT_MATCH, with
`validate_currency_field("$1,000.00", "1000.00")` returning MATCHED_EXACTLY.
In the code the call `_normalize_for_numeric(source_value, keep_decimal=True)`
raises `TypeError` (no such keyword parameter exists) and the `except`
clause converts it, so the validator returns TYPE_ERROR on every input —
in particular on the claim's own example, where the claim demands
MATCHED_EXACTLY with score 100. -/
theorem c1_validate_currency_field_always_type_error :
    (∀ source_value target_value : PyVal,
        validate_currency_field source_value target_value =
          mkRes ValidationStatus.TYPE_ERROR Option.none) ∧
      validate_currency_field (PyVal.str "$1,000.00") (PyVal.str "1000.00") ≠
        mkRes ValidationStatus.MATCHED_EXACTLY (some 100) := by
  constructor
  · intro source_value target_value
    rfl
  · intro h
    have hs : ValidationStatus.TYPE_ERROR = ValidationStatus.MATCHED_EXACTLY :=
      congrArg FieldResult.status h
    simp [ValidationStatus.TYPE_ERROR, ValidationStatus.MATCHED_EXACTLY] at hs

/-- C2 counterexample: the claim states that `validate_documents` never
raises because validator-internal exceptions are converted to TYPE_ERROR.
But `validate_container_field` has no exception handler: a container value
given as a list with a non-string element (here the integer `1`) raises
`AttributeError` in `to_set`, and the exception propagates out of
`validate_documents` instead of producing a report. -/
theorem c2_validate_documents_raises_counterexample :
    validate_documents
      [("container_number", PyVal.list [PyVal.int 1])]
      [("container_number", PyVal.str "ABCD1234567")]
      "bill_of_lading" = Except.error PyError.attributeError := rfl

/-- C2 amended: exceptions inside the integer, float and currency validators
are caught and surfaced as TYPE_ERROR verdicts, and `validate_documents`
returns a complete report whenever every container-number value in the
source and target mappings is exception-safe (a string, or a list of
strings) — values of every other field cannot raise, since the remaining
validators only apply `str()`-based processing; but the container-list
validator itself has no handler, so outside that condition an
`AttributeError` escapes `validate_documents` (see the counterexample). -/
theorem c2_validate_documents_total_when_container_values_safe
    (source_of_truth target_doc : List (String × PyVal)) (target_doc_type : String)
    (hsrc : ∀ p ∈ source_of_truth, p.1 ∈ CONTAINER_FIELDS → containerSafe p.2)
    (htgt : ∀ p ∈ target_doc, p.1 ∈ CONTAINER_FIELDS → containerSafe p.2) :
    ∃ report, validate_documents source_of_truth target_doc target_doc_type =
      Except.ok report :=
  validate_documents_go_ok (required_fields_for target_doc_type) target_doc
    source_of_truth hsrc htgt

/-- Witness for the C2 amended theorem at a concrete input whose
container-number value is safe while a non-container field carries an
unsafe list: the hypotheses hold and a report is still returned. -/
theorem c2_witness :
    (∀ p ∈ [(("exporter_address" : String), PyVal.list [PyVal.int 1]),
        (("container_number" : String), PyVal.str "MAEU1234567")],
        p.1 ∈ CONTAINER_FIELDS → containerSafe p.2) ∧
      (∀ p ∈ ([] : List (String × PyVal)), p.1 ∈ CONTAINER_FIELDS → containerSafe p.2) ∧
      ∃ report, validate_documents
        [("exporter_address", PyVal.list [PyVal.int 1]),
         ("container_number", PyVal.str "MAEU1234567")] [] "bill_of_lading" =
          Except.ok report := by
  have h1 : ∀ p ∈ [(("exporter_address" : String), PyVal.list [PyVal.int 1]),
      (("container_number" : String), PyVal.str "MAEU1234567")],
      p.1 ∈ CONTAINER_FIELDS → containerSafe p.2 := by
    intro p hp hin
    rcases List.mem_cons.mp hp with rfl | hp'
    · exact absurd hin (by decide)
    · rcases List.mem_singleton.mp hp' with rfl
      exact trivial
  have h2 : ∀ p ∈ ([] : List (String × PyVal)), p.1 ∈ CONTAINER_FIELDS →
      containerSafe p.2 := by
    intro p hp
    cases hp
  exact ⟨h1, h2, c2_validate_documents_total_when_container_values_safe
    [("exporter_address", PyVal.list [PyVal.int 1]),
     ("container_number", PyVal.str "MAEU1234567")] [] "bill_of_lading" h1 h2⟩

/-- C3: the claim (and the validator's own docstring) states that for source
`"Netherlands"` and target `"NL"` the token-set similarity exceeds 80 and
the verdict is MATCHED_MOSTLY.  The token sets `{netherlands}` and `{nl}`
are disjoint singletons, so the token-set score is the rounded Indel
similarity of the two words, `round(400/13) = 31`, and the validator
returns DOES_NOT_MATCH with score 31. -/
theorem c3_partial_match_netherlands_nl_does_not_match :
    validate_partial_match_field (PyVal.str "Netherlands") (PyVal.str "NL") =
        mkRes ValidationStatus.DOES_NOT_MATCH (some 31) ∧
      tokenSetScore (PyVal.str "Netherlands") (PyVal.str "NL") = 31 := by
  constructor
  · rfl
  · rfl

end DocValidator

namespace DocValidator

/-- C4: whenever `validate_documents` returns a report, the report's key
sequence is exactly the source-of-truth key sequence — so every source key
appears, target-only keys never appear, and under the dict invariant that
source keys are distinct every key appears exactly once. -/
theorem c4_report_keys_match_source
    (source_of_truth target_doc : List (String × PyVal)) (target_doc_type : String)
    (report : List (String × FieldResult))
    (h : validate_documents source_of_truth target_doc target_doc_type =
      Except.ok report) :
    report.map Prod.fst = source_of_truth.map Prod.fst ∧
      ((source_of_truth.map Prod.fst).Nodup →
        ∀ key ∈ source_of_truth.map Prod.fst, (report.map Prod.fst).count key = 1) := by
  have hkeys := validate_documents_go_keys
    (required_fields_for target_doc_type) target_doc source_of_truth report h
  refine ⟨hkeys, ?_⟩
  intro hnd key hkey
  rw [hkeys]
  exact List.count_eq_one_of_mem hnd hkey

/-- Witness for C4 at a concrete input: a one-field source of truth against
an empty eur1 target. -/
theorem c4_witness :
    validate_documents [(("voyage" : String), PyVal.str "V1")] [] "eur1" =
        Except.ok [("voyage", FieldResult.mk ValidationStatus.MISSING_REQUIRED_FIELD
          Option.none (some (PyVal.str "V1")) (some PyVal.none))] ∧
      ([("voyage", FieldResult.mk ValidationStatus.MISSING_REQUIRED_FIELD
          Option.none (some (PyVal.str "V1")) (some PyVal.none))].map Prod.fst =
          [(("voyage" : String), PyVal.str "V1")].map Prod.fst ∧
        (([(("voyage" : String), PyVal.str "V1")].map Prod.fst).Nodup →
          ∀ key ∈ [(("voyage" : String), PyVal.str "V1")].map Prod.fst,
            ([("voyage", FieldResult.mk ValidationStatus.MISSING_REQUIRED_FIELD
              Option.none (some (PyVal.str "V1")) (some PyVal.none))].map Prod.fst).count key = 1)) :=
  ⟨rfl, c4_report_keys_match_source [(("voyage" : String), PyVal.str "V1")] [] "eur1"
    [("voyage", FieldResult.mk ValidationStatus.MISSING_REQUIRED_FIELD
      Option.none (some (PyVal.str "V1")) (some PyVal.none))] rfl⟩

/-- C5: when the target value of a field is missing (null, or blank after
string coercion), the dispatcher records MISSING_REQUIRED_FIELD exactly when
the field is in the target document type's required profile and
NOT_APPLICABLE otherwise, with a null score and the raw values attached, and
no validator output enters the verdict; concretely, for document type
`certificate_of_origin` a missing `voyage` yields NOT_APPLICABLE while a
missing `exporter_address` yields MISSING_REQUIRED_FIELD. -/
theorem c5_missing_field_policy :
    (∀ (source_of_truth target_doc : List (String × PyVal)) (target_doc_type : String)
        (report : List (String × FieldResult)) (key : String) (source_value : PyVal),
        validate_documents source_of_truth target_doc target_doc_type = Except.ok report →
        (key, source_value) ∈ source_of_truth →
        isMissingTarget (pyGet target_doc key) = true →
        (key, FieldResult.mk
          (if key ∈ required_fields_for target_doc_type
           then ValidationStatus.MISSING_REQUIRED_FIELD
           else ValidationStatus.NOT_APPLICABLE)
          Option.none (some source_value) (some (pyGet target_doc key))) ∈ report) ∧
      validate_documents
        [("voyage", PyVal.str "V"), ("exporter_address", PyVal.str "A")]
        [] "certificate_of_origin" =
      Except.ok
        [("voyage", FieldResult.mk ValidationStatus.NOT_APPLICABLE Option.none
            (some (PyVal.str "V")) (some PyVal.none)),
         ("exporter_address", FieldResult.mk ValidationStatus.MISSING_REQUIRED_FIELD Option.none
            (some (PyVal.str "A")) (some PyVal.none))] := by
  constructor
  · intro source_of_truth target_doc target_doc_type report key source_value h hmem hmiss
    obtain ⟨r, hr, hrmem⟩ := validate_documents_go_entry
      (required_fields_for target_doc_type) target_doc source_of_truth report key
      source_value h hmem
    have := processEntry_missing (required_fields_for target_doc_type) target_doc
      key source_value hmiss
    rw [this] at hr
    cases hr
    exact hrmem
  · rfl

/-- Witness for the C5 universal part at a concrete input: a missing
`voyage` on a `certificate_of_origin` target produces a NOT_APPLICABLE
entry in the report. -/
theorem c5_witness :
    validate_documents [(("voyage" : String), PyVal.str "V")] [] "certificate_of_origin" =
        Except.ok [("voyage", FieldResult.mk ValidationStatus.NOT_APPLICABLE Option.none
          (some (PyVal.str "V")) (some PyVal.none))] ∧
      (("voyage" : String), PyVal.str "V") ∈ [(("voyage" : String), PyVal.str "V")] ∧
      isMissingTarget (pyGet [] "voyage") = true ∧
      ("voyage", FieldResult.mk
        (if "voyage" ∈ required_fields_for "certificate_of_origin"
         then ValidationStatus.MISSING_REQUIRED_FIELD
         else ValidationStatus.NOT_APPLICABLE)
        Option.none (some (PyVal.str "V")) (some (pyGet [] "voyage"))) ∈
        [("voyage", FieldResult.mk ValidationStatus.NOT_APPLICABLE Option.none
          (some (PyVal.str "V")) (some PyVal.none))] :=
  ⟨rfl, List.mem_singleton.mpr rfl, rfl,
    c5_missing_field_policy.1 [(("voyage" : String), PyVal.str "V")] [] "certificate_of_origin"
      [("voyage", FieldResult.mk ValidationStatus.NOT_APPLICABLE Option.none
        (some (PyVal.str "V")) (some PyVal.none))] "voyage" (PyVal.str "V")
      rfl (List.mem_singleton.mpr rfl) rfl⟩

/-- C7: the field `port_of_destination` is a member of both the simple-text
and the partial-match registries, and for a present target value the
dispatcher's precedence chain routes it to `validate_partial_match_field`
(not the generic path): its report entry is exactly the partial-match
verdict with the raw values attached. -/
theorem c7_port_of_destination_routed_to_partial_match :
    (∀ (source_of_truth target_doc : List (String × PyVal)) (target_doc_type : String)
        (report : List (String × FieldResult)) (source_value : PyVal),
        validate_documents source_of_truth target_doc target_doc_type = Except.ok report →
        ("port_of_destination", source_value) ∈ source_of_truth →
        isMissingTarget (pyGet target_doc "port_of_destination") = false →
        ("port_of_destination",
          withValues source_value (pyGet target_doc "port_of_destination")
            (validate_partial_match_field source_value
              (pyGet target_doc "port_of_destination"))) ∈ report) ∧
      "port_of_destination" ∈ SIMPLE_TEXT_FIELDS ∧
      "port_of_destination" ∈ PARTIAL_MATCH_FIELDS := by
  refine ⟨?_, by decide, by decide⟩
  intro source_of_truth target_doc target_doc_type report source_value h hmem hpresent
  obtain ⟨r, hr, hrmem⟩ := validate_documents_go_entry
    (required_fields_for target_doc_type) target_doc source_of_truth report
    "port_of_destination" source_value h hmem
  have := processEntry_port (required_fields_for target_doc_type) target_doc
    source_value hpresent
  rw [this] at hr
  cases hr
  exact hrmem

/-- Witness for the C7 universal part: source port `"Netherlands"` against a
target carrying `"NL"` produces the partial-match verdict in the report. -/
theorem c7_witness :
    validate_documents [(("port_of_destination" : String), PyVal.str "Netherlands")]
        [("port_of_destination", PyVal.str "NL")] "eur1" =
        Except.ok [("port_of_destination",
          withValues (PyVal.str "Netherlands") (PyVal.str "NL")
            (validate_partial_match_field (PyVal.str "Netherlands") (PyVal.str "NL")))] ∧
      (("port_of_destination" : String), PyVal.str "Netherlands") ∈
        [(("port_of_destination" : String), PyVal.str "Netherlands")] ∧
      isMissingTarget (pyGet [("port_of_destination", PyVal.str "NL")] "port_of_destination") = false ∧
      ("port_of_destination",
        withValues (PyVal.str "Netherlands")
          (pyGet [("port_of_destination", PyVal.str "NL")] "port_of_destination")
          (validate_partial_match_field (PyVal.str "Netherlands")
            (pyGet [("port_of_destination", PyVal.str "NL")] "port_of_destination"))) ∈
        [("port_of_destination",
          withValues (PyVal.str "Netherlands") (PyVal.str "NL")
            (validate_partial_match_field (PyVal.str "Netherlands") (PyVal.str "NL")))] :=
  ⟨rfl, List.mem_singleton.mpr rfl, rfl,
    c7_port_of_destination_routed_to_partial_match.1
      [(("port_of_destination" : String), PyVal.str "Netherlands")]
      [("port_of_destination", PyVal.str "NL")] "eur1"
      [("port_of_destination",
        withValues (PyVal.str "Netherlands") (PyVal.str "NL")
          (validate_partial_match_field (PyVal.str "Netherlands") (PyVal.str "NL")))]
      (PyVal.str "Netherlands") rfl (List.mem_singleton.mpr rfl) rfl⟩

end DocValidator

namespace DocValidator

/-- C6: whenever both values numeric-normalize and parse as floats, the
float validator answers MATCHED_EXACTLY/100 on exact equality,
MATCHED_WITH_TOLERANCE/99 when the difference is within one percent of the
source value, and DOES_NOT_MATCH/0 otherwise; a parse failure on either
side yields TYPE_ERROR; the claim's two concrete examples hold; and for a
source that parses to zero the tolerance band collapses, making
MATCHED_WITH_TOLERANCE unreachable. -/
theorem c6_float_validator_spec :
    (∀ (source_value target_value : PyVal) (s t : PyFloat),
        parseNumeric (normalize_for_numeric source_value) = some s →
        parseNumeric (normalize_for_numeric target_value) = some t →
        validate_float_field source_value target_value =
          (if s.toRat = t.toRat then mkRes ValidationStatus.MATCHED_EXACTLY (some 100)
           else if |s.toRat - t.toRat| ≤ s.toRat * (1 / 100) then
             mkRes ValidationStatus.MATCHED_WITH_TOLERANCE (some 99)
           else mkRes ValidationStatus.DOES_NOT_MATCH (some 0))) ∧
      (∀ source_value target_value : PyVal,
          parseNumeric (normalize_for_numeric source_value) = Option.none ∨
            parseNumeric (normalize_for_numeric target_value) = Option.none →
          validate_float_field source_value target_value =
            mkRes ValidationStatus.TYPE_ERROR Option.none) ∧
      validate_float_field (PyVal.str "100.00") (PyVal.str "100.5") =
        mkRes ValidationStatus.MATCHED_WITH_TOLERANCE (some 99) ∧
      validate_float_field (PyVal.str "100.00") (PyVal.str "102.5") =
        mkRes ValidationStatus.DOES_NOT_MATCH (some 0) ∧
      (∀ (source_value target_value : PyVal) (s : PyFloat),
          parseNumeric (normalize_for_numeric source_value) = some s →
          s.toRat = 0 →
          (validate_float_field source_value target_value).status ≠
            ValidationStatus.MATCHED_WITH_TOLERANCE) := by
  refine ⟨?_, ?_, rfl, rfl, ?_⟩
  · intro source_value target_value s t hs ht
    by_cases h1 : s.toRat = t.toRat
    · have h1' : s.num * (10 : Int) ^ t.exp = t.num * (10 : Int) ^ s.exp :=
        (floatEq_iff s t).mpr h1
      rw [if_pos h1]
      simp only [validate_float_field, hs, ht]
      rw [if_pos h1']
    · have h1' : ¬ s.num * (10 : Int) ^ t.exp = t.num * (10 : Int) ^ s.exp :=
        fun hc => h1 ((floatEq_iff s t).mp hc)
      rw [if_neg h1]
      by_cases h2 : |s.toRat - t.toRat| ≤ s.toRat * (1 / 100)
      · have h2' := (floatTol_iff s t).mpr h2
        rw [if_pos h2]
        simp only [validate_float_field, hs, ht]
        rw [if_neg h1', if_pos h2']
      · have h2' : ¬ 100 * (((s.num * (10 : Int) ^ t.exp -
            t.num * (10 : Int) ^ s.exp).natAbs : Int)) ≤ s.num * (10 : Int) ^ t.exp :=
          fun hc => h2 ((floatTol_iff s t).mp hc)
        rw [if_neg h2]
        simp only [validate_float_field, hs, ht]
        rw [if_neg h1', if_neg h2']
  · intro source_value target_value h
    cases hsv : parseNumeric (normalize_for_numeric source_value) with
    | none =>
        cases htv : parseNumeric (normalize_for_numeric target_value) with
        | none => simp only [validate_float_field, hsv, htv]
        | some t => simp only [validate_float_field, hsv, htv]
    | some s =>
        cases htv : parseNumeric (normalize_for_numeric target_value) with
        | none => simp only [validate_float_field, hsv, htv]
        | some t =>
            rcases h with h | h
            · rw [hsv] at h
              cases h
            · rw [htv] at h
              cases h
  · intro source_value target_value s hs h0
    have hnum : s.num = 0 := (floatZero_iff s).mp h0
    cases htv : parseNumeric (normalize_for_numeric target_value) with
    | none =>
        simp only [validate_float_field, hs, htv]
        decide
    | some t =>
        by_cases heq : s.num * (10 : Int) ^ t.exp = t.num * (10 : Int) ^ s.exp
        · simp only [validate_float_field, hs, htv]
          rw [if_pos heq]
          decide
        · have htol : ¬ 100 * (((s.num * (10 : Int) ^ t.exp -
              t.num * (10 : Int) ^ s.exp).natAbs : Int)) ≤ s.num * (10 : Int) ^ t.exp := by
            rw [hnum] at heq ⊢
            simp only [zero_mul] at heq ⊢
            omega
          simp only [validate_float_field, hs, htv]
          rw [if_neg heq, if_neg htol]
          decide

/-- Witness for the C6 universal part at the claim's own example. -/
theorem c6_witness :
    parseNumeric (normalize_for_numeric (PyVal.str "100.00")) = some (PyFloat.mk 10000 2) ∧
      parseNumeric (normalize_for_numeric (PyVal.str "100.5")) = some (PyFloat.mk 1005 1) ∧
      validate_float_field (PyVal.str "100.00") (PyVal.str "100.5") =
        (if (PyFloat.mk 10000 2).toRat = (PyFloat.mk 1005 1).toRat then
           mkRes ValidationStatus.MATCHED_EXACTLY (some 100)
         else if |(PyFloat.mk 10000 2).toRat - (PyFloat.mk 1005 1).toRat| ≤
             (PyFloat.mk 10000 2).toRat * (1 / 100) then
           mkRes ValidationStatus.MATCHED_WITH_TOLERANCE (some 99)
         else mkRes ValidationStatus.DOES_NOT_MATCH (some 0)) :=
  ⟨rfl, rfl, c6_float_validator_spec.1 (PyVal.str "100.00") (PyVal.str "100.5")
    (PyFloat.mk 10000 2) (PyFloat.mk 1005 1) rfl rfl⟩

/-- C9: the integer validator compares the two parsed values after
truncating via `int(float(...))`, so any two parsable values with equal
truncations are MATCHED_EXACTLY with score 100 even when their exact values
differ — concretely `"120.9"` and `"120.2"` parse to the distinct values
120.9 and 120.2 yet are reported MATCHED_EXACTLY. -/
theorem c9_integer_validator_truncates :
    (∀ (source_value target_value : PyVal) (s t : PyFloat),
        parseNumeric (normalize_for_numeric source_value) = some s →
        parseNumeric (normalize_for_numeric target_value) = some t →
        s.trunc = t.trunc →
        validate_integer_field source_value target_value =
          mkRes ValidationStatus.MATCHED_EXACTLY (some 100)) ∧
      validate_integer_field (PyVal.str "120.9") (PyVal.str "120.2") =
        mkRes ValidationStatus.MATCHED_EXACTLY (some 100) ∧
      parseNumeric (normalize_for_numeric (PyVal.str "120.9")) = some (PyFloat.mk 1209 1) ∧
      parseNumeric (normalize_for_numeric (PyVal.str "120.2")) = some (PyFloat.mk 1202 1) ∧
      (PyFloat.mk 1209 1).toRat ≠ (PyFloat.mk 1202 1).toRat := by
  refine ⟨?_, rfl, rfl, rfl, ?_⟩
  · intro source_value target_value s t hs ht htr
    simp [validate_integer_field, hs, ht, htr]
  · intro h
    rw [PyFloat.toRat, PyFloat.toRat] at h
    norm_num at h

/-- Witness for the C9 universal part at the claim's own example. -/
theorem c9_witness :
    parseNumeric (normalize_for_numeric (PyVal.str "120.9")) = some (PyFloat.mk 1209 1) ∧
      parseNumeric (normalize_for_numeric (PyVal.str "120.2")) = some (PyFloat.mk 1202 1) ∧
      (PyFloat.mk 1209 1).trunc = (PyFloat.mk 1202 1).trunc ∧
      validate_integer_field (PyVal.str "120.9") (PyVal.str "120.2") =
        mkRes ValidationStatus.MATCHED_EXACTLY (some 100) :=
  ⟨rfl, rfl, rfl, c9_integer_validator_truncates.1 (PyVal.str "120.9") (PyVal.str "120.2")
    (PyFloat.mk 1209 1) (PyFloat.mk 1202 1) rfl rfl rfl⟩

end DocValidator

namespace DocValidator

/-- Decision table transcribed from the claim's words (the spec side of C8):
search the lower-cased banking text for the keywords `euro`, then `usd`,
then `uk`/`gbp`, first match winning; no keyword is NOT_APPLICABLE; else
MATCH exactly when the matching currency symbol occurs as a substring of
the total-value text, MISMATCH otherwise. -/
def bankingStatusSpec (banking_text total_text : String) : String :=
  let lower := pyLower banking_text
  if strContains lower "euro" then
    (if strContains total_text "€" then "MATCH" else "MISMATCH")
  else if strContains lower "usd" then
    (if strContains total_text "$" then "MATCH" else "MISMATCH")
  else if strContains lower "uk" || strContains lower "gbp" then
    (if strContains total_text "£" then "MATCH" else "MISMATCH")
  else "NOT_APPLICABLE"

/-- C8: for every source-of-truth mapping whose banking-details value is a
string, `validate_banking_details` returns a verdict whose status follows
the claimed keyword-priority/symbol decision table applied to the banking
text and the string coercion of the total value; and on the claim's
concrete examples a Euro banking text with a `€` total gives MATCH, with a
`$` total gives MISMATCH, and keyword-free banking text gives
NOT_APPLICABLE. -/
theorem c8_banking_details_check_spec :
    (∀ (ci_data : List (String × PyVal)) (bank : String),
        pyGetD ci_data "banking_details" (PyVal.str "") = PyVal.str bank →
        ∃ r, validate_banking_details ci_data = Except.ok r ∧
          r.status = bankingStatusSpec bank
            (pyStr (pyGetD ci_data "total_value" (PyVal.str "")))) ∧
      validate_banking_details
        [("banking_details", PyVal.str "Pay in Euro"), ("total_value", PyVal.str "€120.00")] =
        Except.ok (BankingResult.mk "MATCH" (some "Pay in Euro") (some "€120.00")) ∧
      validate_banking_details
        [("banking_details", PyVal.str "Pay in Euro"), ("total_value", PyVal.str "$120.00")] =
        Except.ok (BankingResult.mk "MISMATCH" (some "Pay in Euro") (some "$120.00")) ∧
      validate_banking_details [("banking_details", PyVal.str "Standard Bank account")] =
        Except.ok (BankingResult.mk "NOT_APPLICABLE" Option.none Option.none) := by
  refine ⟨?_, rfl, rfl, rfl⟩
  intro ci_data bank hbank
  cases h1 : strContains (pyLower bank) "euro" with
  | true =>
      cases h2 : strContains (pyStr (pyGetD ci_data "total_value" (PyVal.str ""))) "€" with
      | true =>
          refine ⟨BankingResult.mk "MATCH" (some bank)
            (some (pyStr (pyGetD ci_data "total_value" (PyVal.str "")))), ?_, ?_⟩
          · simp [validate_banking_details, hbank, h1, h2]
          · simp [bankingStatusSpec, h1, h2]
      | false =>
          refine ⟨BankingResult.mk "MISMATCH" (some bank)
            (some (pyStr (pyGetD ci_data "total_value" (PyVal.str "")))), ?_, ?_⟩
          · simp [validate_banking_details, hbank, h1, h2]
          · simp [bankingStatusSpec, h1, h2]
  | false =>
      cases h2 : strContains (pyLower bank) "usd" with
      | true =>
          cases h3 : strContains (pyStr (pyGetD ci_data "total_value" (PyVal.str ""))) "$" with
          | true =>
              refine ⟨BankingResult.mk "MATCH" (some bank)
                (some (pyStr (pyGetD ci_data "total_value" (PyVal.str "")))), ?_, ?_⟩
              · simp [validate_banking_details, hbank, h1, h2, h3]
              · simp [bankingStatusSpec, h1, h2, h3]
          | false =>
              refine ⟨BankingResult.mk "MISMATCH" (some bank)
                (some (pyStr (pyGetD ci_data "total_value" (PyVal.str "")))), ?_, ?_⟩
              · simp [validate_banking_details, hbank, h1, h2, h3]
              · simp [bankingStatusSpec, h1, h2, h3]
      | false =>
          cases h3 : strContains (pyLower bank) "uk" with
          | true =>
              cases h4 : strContains (pyStr (pyGetD ci_data "total_value" (PyVal.str ""))) "£" with
              | true =>
                  refine ⟨BankingResult.mk "MATCH" (some bank)
                    (some (pyStr (pyGetD ci_data "total_value" (PyVal.str "")))), ?_, ?_⟩
                  · simp [validate_banking_details, hbank, h1, h2, h3, h4]
                  · simp [bankingStatusSpec, h1, h2, h3, h4]
              | false =>
                  refine ⟨BankingResult.mk "MISMATCH" (some bank)
                    (some (pyStr (pyGetD ci_data "total_value" (PyVal.str "")))), ?_, ?_⟩
                  · simp [validate_banking_details, hbank, h1, h2, h3, h4]
                  · simp [bankingStatusSpec, h1, h2, h3, h4]
          | false =>
              cases h4 : strContains (pyLower bank) "gbp" with
              | true =>
                  cases h5 : strContains (pyStr (pyGetD ci_data "total_value" (PyVal.str ""))) "£" with
                  | true =>
                      refine ⟨BankingResult.mk "MATCH" (some bank)
                        (some (pyStr (pyGetD ci_data "total_value" (PyVal.str "")))), ?_, ?_⟩
                      · simp [validate_banking_details, hbank, h1, h2, h3, h4, h5]
                      · simp [bankingStatusSpec, h1, h2, h3, h4, h5]
                  | false =>
                      refine ⟨BankingResult.mk "MISMATCH" (some bank)
                        (some (pyStr (pyGetD ci_data "total_value" (PyVal.str "")))), ?_, ?_⟩
                      · simp [validate_banking_details, hbank, h1, h2, h3, h4, h5]
                      · simp [bankingStatusSpec, h1, h2, h3, h4, h5]
              | false =>
                  refine ⟨BankingResult.mk "NOT_APPLICABLE" Option.none Option.none, ?_, ?_⟩
                  · simp [validate_banking_details, hbank, h1, h2, h3, h4]
                  · simp [bankingStatusSpec, h1, h2, h3, h4]

/-- Witness for the C8 universal part at a concrete commercial invoice. -/
theorem c8_witness :
    pyGetD [("banking_details", PyVal.str "Pay in Euro"), ("total_value", PyVal.str "€120.00")]
        "banking_details" (PyVal.str "") = PyVal.str "Pay in Euro" ∧
      ∃ r, validate_banking_details
          [("banking_details", PyVal.str "Pay in Euro"), ("total_value", PyVal.str "€120.00")] =
          Except.ok r ∧
        r.status = bankingStatusSpec "Pay in Euro"
          (pyStr (pyGetD [("banking_details", PyVal.str "Pay in Euro"),
            ("total_value", PyVal.str "€120.00")] "total_value" (PyVal.str ""))) :=
  ⟨rfl, c8_banking_details_check_spec.1
    [("banking_details", PyVal.str "Pay in Euro"), ("total_value", PyVal.str "€120.00")]
    "Pay in Euro" rfl⟩

/-- C10: when the source-of-truth maps `banking_details` to `None` (key
present, null value), `validate_banking_details` raises `AttributeError`
at `banking_details_text.lower()` instead of returning NOT_APPLICABLE; the
empty-string default protects only a missing key, for which the check
returns NOT_APPLICABLE. -/
theorem c10_banking_details_none_raises :
    (∀ ci_data : List (String × PyVal),
        pyGetD ci_data "banking_details" (PyVal.str "") = PyVal.none →
        validate_banking_details ci_data = Except.error PyError.attributeError) ∧
      validate_banking_details [] =
        Except.ok (BankingResult.mk "NOT_APPLICABLE" Option.none Option.none) := by
  refine ⟨?_, rfl⟩
  intro ci_data h
  unfold validate_banking_details
  rw [h]

/-- Witness for the C10 universal part: the key present with a null value. -/
theorem c10_witness :
    pyGetD [("banking_details", PyVal.none)] "banking_details" (PyVal.str "") = PyVal.none ∧
      validate_banking_details [("banking_details", PyVal.none)] =
        Except.error PyError.attributeError :=
  ⟨rfl, c10_banking_details_none_raises.1 [("banking_details", PyVal.none)] rfl⟩

end DocValidator
